import Mathlib

/-
  Verification of the `jsonrpcparts` JSON-RPC protocol layer.

  This file gives a shallow embedding, in Lean, of the protocol core of the
  repository (`jsonrpcparts/errors.py`, `jsonrpcparts/serializers.py`,
  `jsonrpcparts/application.py`, `jsonrpcparts/client.py`) and proves
  properties of the embedded definitions.

  Modelling conventions:
  * Python/JSON values are modelled by the inductive `Json` below.  JSON
    numbers are modelled as integers (no claim under study involves
    non-integer numbers).  Python `None` is `Json.null`.
  * `json.loads` is external to the repository; a decode outcome is passed in
    as `Except String Json` (`.error msg` models a `ValueError` raised by
    `json.loads`, carrying the message interpolated into "No valid JSON...").
  * Python exceptions are values of `PyError`: `RPCFault` instances are
    distinguished from all other exception types, mirroring the
    `except errors.RPCFault` / `except Exception` split in the source.
  * Python string interpolation `"%s" % value` is modelled by the `pyStr`
    functions, a faithful rendering of CPython 2 `str()` on JSON-shaped data.
  * `str(uuid.uuid4())` is modelled as a deterministic supply indexed by a
    natural-number seed which is threaded explicitly.
-/

namespace JsonRpcParts

/-- A JSON value (also used for the Python data that `json.loads` produces and
`json.dumps` consumes).  Numbers are modelled as integers. -/
inductive Json where
  | null
  | bool (b : Bool)
  | num (n : Int)
  | str (s : String)
  | arr (xs : List Json)
  | obj (kvs : List (String × Json))

/-- Python truthiness of a JSON-shaped value (`if value:`). -/
def Json.truthy : Json → Bool
  | .null => false
  | .bool b => b
  | .num n => n != 0
  | .str s => s != ""
  | .arr xs => !xs.isEmpty
  | .obj kvs => !kvs.isEmpty

/-- Whether the value is a Python string. -/
def Json.isStr : Json → Bool
  | .str _ => true
  | _ => false

/-- Whether the value is Python `None` (JSON null). -/
def Json.isNull : Json → Bool
  | .null => true
  | _ => false

/-- CPython 2 type name of the value, as in `AttributeError` messages. -/
def Json.pyTypeName : Json → String
  | .null => "NoneType"
  | .bool _ => "bool"
  | .num _ => "int"
  | .str _ => "str"
  | .arr _ => "list"
  | .obj _ => "dict"

/-- CPython 2 rendering of `type(value)`, as interpolated by `"%s" % type(v)`. -/
def Json.pyTypeRepr (j : Json) : String :=
  "<type \x27" ++ j.pyTypeName ++ "\x27>"

/-- Lookup of a key in a Python dict modelled as an association list
(first binding wins; `json.loads` produces unique keys). -/
def lookupKey (kvs : List (String × Json)) (k : String) : Option Json :=
  match kvs with
  | [] => none
  | (k0, v) :: rest => if k0 = k then some v else lookupKey rest k

mutual

/-- CPython 2 `repr()` of a JSON-shaped value, used inside container renderings. -/
def Json.pyRepr : Json → String
  | .null => "None"
  | .bool true => "True"
  | .bool false => "False"
  | .num n => toString n
  | .str s => "\x27" ++ s ++ "\x27"
  | .arr xs => "[" ++ pyReprList xs ++ "]"
  | .obj kvs => "\x7b" ++ pyReprPairs kvs ++ "\x7d"

/-- Comma-separated `repr` rendering of list elements. -/
def pyReprList : List Json → String
  | [] => ""
  | [x] => x.pyRepr
  | x :: y :: rest => x.pyRepr ++ ", " ++ pyReprList (y :: rest)

/-- Comma-separated `repr` rendering of dict items. -/
def pyReprPairs : List (String × Json) → String
  | [] => ""
  | [(k, v)] => "\x27" ++ k ++ "\x27: " ++ v.pyRepr
  | (k, v) :: y :: rest => "\x27" ++ k ++ "\x27: " ++ v.pyRepr ++ ", " ++ pyReprPairs (y :: rest)

end

/-- CPython 2 `str()` of a JSON-shaped value (what `"%s" % value` produces). -/
def Json.pyStr : Json → String
  | .str s => s
  | j => j.pyRepr

/-! ## `jsonrpcparts/errors.py` -/

/-- JSON-RPC 2.0 error code `PARSE_ERROR` (errors.py). -/
def PARSE_ERROR : Int := -32700

/-- JSON-RPC 2.0 error code `INVALID_REQUEST` (errors.py). -/
def INVALID_REQUEST : Int := -32600

/-- JSON-RPC 2.0 error code `METHOD_NOT_FOUND` (errors.py). -/
def METHOD_NOT_FOUND : Int := -32601

/-- JSON-RPC 2.0 error code `INVALID_METHOD_PARAMS` (errors.py). -/
def INVALID_METHOD_PARAMS : Int := -32602

/-- JSON-RPC 2.0 error code `INTERNAL_ERROR` (errors.py). -/
def INTERNAL_ERROR : Int := -32603

/-- Additional error code `PROCEDURE_EXCEPTION` (errors.py). -/
def PROCEDURE_EXCEPTION : Int := -32000

/-- Additional error code `AUTHENTIFICATION_ERROR` (errors.py). -/
def AUTHENTIFICATION_ERROR : Int := -32001

/-- Additional error code `PERMISSION_DENIED` (errors.py). -/
def PERMISSION_DENIED : Int := -32002

/-- Additional error code `INVALID_PARAM_VALUES` (errors.py). -/
def INVALID_PARAM_VALUES : Int := -32003

/-- The `ERROR_MESSAGE` table of errors.py: human-readable default messages. -/
def ERROR_MESSAGE (code : Int) : Option String :=
  if code = PARSE_ERROR then some "Parse error."
  else if code = INVALID_REQUEST then some "Invalid Request."
  else if code = METHOD_NOT_FOUND then some "Method not found."
  else if code = INVALID_METHOD_PARAMS then some "Invalid parameters."
  else if code = INTERNAL_ERROR then some "Internal error."
  else if code = PROCEDURE_EXCEPTION then some "Procedure exception."
  else if code = AUTHENTIFICATION_ERROR then some "Authentification error."
  else if code = PERMISSION_DENIED then some "Permission denied."
  else if code = INVALID_PARAM_VALUES then some "Invalid parameter values."
  else none

/-- An `errors.RPCFault` instance.  `error_code` and `message` are Json-shaped
because the unknown-code branch of `_parse_single_response` copies arbitrary
wire values into them; `error_data` uses `Json.null` for Python `None`. -/
structure RPCFault where
  error_code : Json
  message : Json
  error_data : Json
  request_id : Json

/-- Models constructing an `errors.RPCFault` subclass instance whose class
attribute `error_code` is the integer `code`:
`Klass(error_data, request_id, message)`.  Per `RPCFault.__init__`, the stored
message is `message or ERROR_MESSAGE.get(error_code)` (Python `or`: an empty
explicit message falls back to the default, a missing default gives `None`). -/
def mkFault (code : Int) (error_data : Json) (request_id : Json) (message : Option String) : RPCFault :=
  { error_code := .num code
    message :=
      match message with
      | some m =>
        if m ≠ "" then .str m
        else
          match ERROR_MESSAGE code with
          | some d => .str d
          | none => .null
      | none =>
        match ERROR_MESSAGE code with
        | some d => .str d
        | none => .null
    error_data := error_data
    request_id := request_id }

/-- The key set of `errors.ERROR_CODE_CLASS_MAP`. -/
def KNOWN_ERROR_CODES : List Int :=
  [PARSE_ERROR, INVALID_REQUEST, METHOD_NOT_FOUND, INVALID_METHOD_PARAMS,
   INTERNAL_ERROR, PROCEDURE_EXCEPTION, AUTHENTIFICATION_ERROR,
   PERMISSION_DENIED, INVALID_PARAM_VALUES]

/-- The membership test `error["code"] in errors.ERROR_CODE_CLASS_MAP`;
returns the matched integer code so the corresponding class can be applied. -/
def codeToKnown (code : Json) : Option Int :=
  match code with
  | .num n => if KNOWN_ERROR_CODES.contains n then some n else none
  | _ => none

/-- A raised Python exception.  `fault` is an `errors.RPCFault` (sub)instance;
the other constructors model built-in exception types raised by the code
(each carrying `ex.message`). -/
inductive PyError where
  | fault (f : RPCFault)
  | typeError (msg : String)
  | valueError (msg : String)
  | attributeError (msg : String)

/-- Python `ex.message` of a modelled exception. -/
def PyError.message : PyError → String
  | .fault f => f.message.pyStr
  | .typeError m => m
  | .valueError m => m
  | .attributeError m => m

/-! ## `jsonrpcparts/serializers.py` — `JSONRPC20Serializer` -/

/-- The shape of a parsed `params` object: JSON-RPC params are either a
positional sequence or a keyed mapping (the 2.0 request parser admits
list/tuple/dict only). -/
inductive Params where
  | plist (xs : List Json)
  | pdict (kvs : List (String × Json))

/-- One element of the list returned by `JSONRPC20Serializer.parse_request`:
the 4-tuple `(method_name, params_object, request_id, error)` produced by
`_parse_single_request_trap_errors`. -/
structure ReqTuple where
  method : Option String
  params : Option Params
  request_id : Json
  error : Option RPCFault

/-- One element of the list returned by `JSONRPC20Serializer.parse_response`:
the 3-tuple `(result, request_id, error)` produced by
`_parse_single_response_trap_errors`. -/
structure RespTuple where
  result : Json
  request_id : Json
  error : Option RPCFault

/-- Models `str(uuid.uuid4())` as a deterministic supply read at `seed`. -/
def uuid4_str (seed : Nat) : String :=
  "00000000-0000-4000-8000-" ++ toString seed

/-- Embeds `JSONRPC20Serializer.assemble_request`.  The `seed` indexes the
uuid supply; the successor seed is returned when an id was generated.  The
`isinstance(method, (str, unicode))` guard always passes here because `method`
is typed as a string; the `params` guard raises `TypeError` exactly when
`params` is truthy and not a tuple/list/dict. -/
def assemble_request (seed : Nat) (method : String) (params : Option Json)
    (notification : Bool) : Except PyError (Json × Nat) :=
  let paramsBad : Bool :=
    match params with
    | some p => p.truthy && !(match p with | .arr _ => true | .obj _ => true | _ => false)
    | none => false
  if paramsBad then
    .error (.typeError "params must be a tuple/list/dict or None.")
  else
    let base := [("jsonrpc", Json.str "2.0"), ("method", Json.str method)]
    let base :=
      match params with
      | some p => if p.truthy then base ++ [("params", p)] else base
      | none => base
    if notification then
      .ok (.obj base, seed)
    else
      .ok (.obj (base ++ [("id", Json.str (uuid4_str seed))]), seed + 1)

/-- Embeds `JSONRPC20Serializer.assemble_response`. -/
def assemble_response (result : Json) (request_id : Json) : Json :=
  .obj [("jsonrpc", .str "2.0"), ("result", result), ("id", request_id)]

/-- Embeds `JSONRPC20Serializer.assemble_error_response`.  The
`isinstance(error, errors.RPCFault)` guard always passes here because the
argument is typed as a fault; `data` is included iff `error_data is not None`. -/
def assemble_error_response (error : RPCFault) : Json :=
  if error.error_data.isNull then
    .obj [("jsonrpc", .str "2.0"),
          ("error", .obj [("code", error.error_code), ("message", error.message)]),
          ("id", error.request_id)]
  else
    .obj [("jsonrpc", .str "2.0"),
          ("error", .obj [("code", error.error_code), ("message", error.message),
                          ("data", error.error_data)]),
          ("id", error.request_id)]

/-- Embeds `JSONRPC20Serializer._parse_single_request`.  On a non-dict
argument, `request_data.get` raises `AttributeError` (the method is only ever
given elements of the decoded message, which need not be dicts). -/
def parse_single_request (request_data : Json) :
    Except PyError (String × Option Params × Json) :=
  match request_data with
  | .obj kvs =>
    let request_id := (lookupKey kvs "id").getD .null
    match lookupKey kvs "jsonrpc" with
    | none =>
      .error (.fault (mkFault INVALID_REQUEST
        (.str "argument \"jsonrpc\" missing.") request_id none))
    | some jv =>
      match jv with
      | .str jstr =>
        match lookupKey kvs "method" with
        | none =>
          .error (.fault (mkFault INVALID_REQUEST
            (.str "argument \"method\" missing.") request_id none))
        | some mv =>
          match mv with
          | .str method =>
            if jstr ≠ "2.0" then
              .error (.fault (mkFault INVALID_REQUEST
                (.str "Invalid jsonrpc version.") request_id none))
            else
              match lookupKey kvs "params" with
              | none => .ok (method, none, request_id)
              | some p =>
                match p with
                | .arr xs => .ok (method, some (.plist xs), request_id)
                | .obj pkvs => .ok (method, some (.pdict pkvs), request_id)
                | _ =>
                  .error (.fault (mkFault INVALID_METHOD_PARAMS
                    (.str ("value of argument \"parameter\" is of non-supported type "
                           ++ p.pyTypeRepr)) request_id none))
          | _ =>
            .error (.fault (mkFault INVALID_REQUEST
              (.str "value of argument \"method\" must be a string.") request_id none))
      | _ =>
        .error (.fault (mkFault INVALID_REQUEST
          (.str "value of argument \"jsonrpc\" must be a string.") request_id none))
  | other =>
    .error (.attributeError
      ("\x27" ++ other.pyTypeName ++ "\x27 object has no attribute \x27get\x27"))

/-- Embeds `JSONRPC20Serializer._parse_single_request_trap_errors`: traps
`errors.RPCFault` only; any other exception propagates. -/
def parse_single_request_trap_errors (request_data : Json) :
    Except PyError ReqTuple :=
  match parse_single_request request_data with
  | .ok (method, params, request_id) =>
    .ok { method := some method, params := params, request_id := request_id, error := none }
  | .error (.fault ex) =>
    .ok { method := none, params := none, request_id := ex.request_id, error := some ex }
  | .error e => .error e

/-- Embeds `JSONRPC20Serializer.parse_request`.  The argument is the outcome
of `json.loads` on the raw string (`.error msg` models the `ValueError`). -/
def parse_request (loads : Except String Json) :
    Except PyError (List ReqTuple × Bool) :=
  match loads with
  | .error err =>
    .error (.fault (mkFault PARSE_ERROR
      (.str ("No valid JSON. (" ++ err ++ ")")) .null none))
  | .ok batch =>
    match batch with
    | .arr xs =>
      if xs.isEmpty then
        .error (.fault (mkFault INVALID_REQUEST
          (.str "Neither a batch array nor a single request object found in the request.")
          .null none))
      else do
        let rs ← xs.mapM parse_single_request_trap_errors
        return (rs, true)
    | .obj kvs => do
      let r ← parse_single_request_trap_errors (.obj kvs)
      return ([r], false)
    | _ =>
      .error (.fault (mkFault INVALID_REQUEST
        (.str "Neither a batch array nor a single request object found in the request.")
        .null none))

/-- Embeds `JSONRPC20Serializer._parse_single_response`. -/
def parse_single_response (response_data : Json) :
    Except PyError (Json × Json) :=
  match response_data with
  | .obj kvs =>
    match lookupKey kvs "id" with
    | none =>
      .error (.fault (mkFault INVALID_REQUEST
        (.str "Invalid Response, \"id\" missing.") .null none))
    | some request_id =>
      match lookupKey kvs "jsonrpc" with
      | none =>
        .error (.fault (mkFault INVALID_REQUEST
          (.str "Invalid Response, \"jsonrpc\" missing.") request_id none))
      | some jv =>
        match jv with
        | .str jstr =>
          if jstr ≠ "2.0" then
            .error (.fault (mkFault INVALID_REQUEST
              (.str "Invalid jsonrpc version.") request_id none))
          else
            let error := (lookupKey kvs "error").getD .null
            let result := (lookupKey kvs "result").getD .null
            if error.truthy && result.truthy then
              .error (.fault (mkFault INVALID_REQUEST
                (.str "Invalid Response, only \"result\" OR \"error\" allowed.")
                request_id none))
            else if error.truthy then
              match error with
              | .obj ekvs =>
                if (lookupKey ekvs "code").isNone || (lookupKey ekvs "message").isNone then
                  .error (.fault (mkFault INVALID_REQUEST
                    (.str "Invalid Response, invalid error-object.") request_id none))
                else
                  let error_data := (lookupKey ekvs "data").getD .null
                  let code := (lookupKey ekvs "code").getD .null
                  match codeToKnown code with
                  | some n => .error (.fault (mkFault n error_data request_id none))
                  | none =>
                    .error (.fault
                      { error_code := code
                        message := (lookupKey ekvs "message").getD .null
                        error_data := error_data
                        request_id := request_id })
              | _ =>
                .error (.fault (mkFault INVALID_REQUEST
                  (.str "Invalid Response, invalid error-object.") request_id none))
            else
              .ok (result, request_id)
        | _ =>
          -- faithful quirk of the source: this raise passes no request_id
          .error (.fault (mkFault INVALID_REQUEST
            (.str "Invalid Response, \"jsonrpc\" must be a string.") .null none))
  | _ =>
    .error (.fault (mkFault INVALID_REQUEST
      (.str "No valid RPC-package.") .null none))

/-- Embeds `JSONRPC20Serializer._parse_single_response_trap_errors`.  Unlike
the request side, `_parse_single_response` only ever raises faults, so the
trap is total. -/
def parse_single_response_trap_errors (response_data : Json) : RespTuple :=
  match parse_single_response response_data with
  | .ok (result, request_id) =>
    { result := result, request_id := request_id, error := none }
  | .error (.fault ex) =>
    { result := .null, request_id := ex.request_id, error := some ex }
  | .error _ =>
    -- unreachable: every error raised by parse_single_response is a fault
    { result := .null, request_id := .null, error := none }

/-- Embeds `JSONRPC20Serializer.parse_response`.  Note the fall-through for an
empty array or a non-array/non-dict value raises `RPCParseError` here
(`RPCInvalidRequest` in the request-side twin). -/
def parse_response (loads : Except String Json) :
    Except PyError (List RespTuple × Bool) :=
  match loads with
  | .error err =>
    .error (.fault (mkFault PARSE_ERROR
      (.str ("No valid JSON. (" ++ err ++ ")")) .null none))
  | .ok batch =>
    match batch with
    | .arr xs =>
      if xs.isEmpty then
        .error (.fault (mkFault PARSE_ERROR
          (.str "Neither a batch array nor a single response object found in the response.")
          .null none))
      else
        .ok (xs.map parse_single_response_trap_errors, true)
    | .obj kvs =>
      .ok ([parse_single_response_trap_errors (.obj kvs)], false)
    | _ =>
      .error (.fault (mkFault PARSE_ERROR
        (.str "Neither a batch array nor a single response object found in the response.")
        .null none))

/-! ## `jsonrpcparts/serializers.py` — `JSONRPC10Serializer` -/

/-- The `AttributeError` raised when the 1.0 parser evaluates
`errors.RPCInvalidRPC`: no such name is defined in `errors.py`. -/
def rpcInvalidRPCMissing : PyError :=
  .attributeError "\x27module\x27 object has no attribute \x27RPCInvalidRPC\x27"

/-- Python dict mutation `data[k] = v` on an association-list dict. -/
def dictSet (kvs : List (String × Json)) (k : String) (v : Json) :
    List (String × Json) :=
  if (lookupKey kvs k).isSome then
    kvs.map (fun p => if p.1 = k then (k, v) else p)
  else
    kvs ++ [(k, v)]

/-- Embeds `JSONRPC10Serializer.parse_request`.  The result is
`(method, params, some id)` for a request and `(method, params, none)` for a
notification (`id` null).  Every `raise errors.RPCInvalidRPC(...)` in the
source evaluates an attribute that does not exist in `errors.py`, so those
paths raise `AttributeError` instead of a fault. -/
def json10_parse_request (loads : Except String Json) :
    Except PyError (String × Json × Option Json) :=
  match loads with
  | .error err =>
    .error (.fault (mkFault PARSE_ERROR
      (.str ("No valid JSON. (" ++ err ++ ")")) .null none))
  | .ok data =>
    match data with
    | .obj kvs0 =>
      match lookupKey kvs0 "method" with
      | none => .error rpcInvalidRPCMissing
      | some mv =>
        match mv with
        | .str method =>
          let kvs1 := if (lookupKey kvs0 "id").isSome then kvs0
                      else dictSet kvs0 "id" .null
          let kvs2 := if (lookupKey kvs1 "params").isSome then kvs1
                      else dictSet kvs1 "params" (.arr [])
          match (lookupKey kvs2 "params").getD .null with
          | .arr ps =>
            if kvs2.length ≠ 3 then .error rpcInvalidRPCMissing
            else if ((lookupKey kvs2 "id").getD .null).isNull then
              .ok (method, .arr ps, none)
            else
              .ok (method, .arr ps, some ((lookupKey kvs2 "id").getD .null))
          | _ => .error rpcInvalidRPCMissing
        | _ => .error rpcInvalidRPCMissing
    | _ => .error rpcInvalidRPCMissing

/-! ## `jsonrpcparts/application.py` -/

/-- A registered JSON-RPC method: a Python callable taking positional and
keyword arguments, returning a value or raising. -/
def RpcMethod : Type := List Json → List (String × Json) → Except PyError Json

/-- The `JSONPRCApplication` registry: the dict-like collection mapping
method names to callables. -/
def Registry : Type := List (String × RpcMethod)

/-- Registry lookup, as used by `method not in self` / `self[method]`.
A `None` method name is not a key of the (string-keyed) dict. -/
def regLookup (reg : Registry) (method : Option String) : Option RpcMethod :=
  match method with
  | some name =>
    match reg.find? (fun p => p.1 == name) with
    | some p => some p.2
    | none => none
  | none => none

/-- The `error_data` string assembled by the generic-exception branch of
`process_requests` ("While processing the follwoing message ... " — the typo
is in the source). -/
def internalErrorText (method : Option String) (params : Option Params)
    (request_id : Json) (exMessage : String) : String :=
  "While processing the follwoing message (\""
    ++ (match method with | some s => s | none => "None")
    ++ "\",\""
    ++ (match params with
        | some (.plist xs) => (Json.arr xs).pyStr
        | some (.pdict kvs) => (Json.obj kvs).pyStr
        | none => "None")
    ++ "\",\"" ++ request_id.pyStr ++ "\") "
    ++ "encountered the following error message \"" ++ exMessage ++ "\""

/-- One iteration of the `for` loop of `JSONPRCApplication.process_requests`:
the response appended for this request tuple, if any. -/
def process_one (reg : Registry) (t : ReqTuple) : Option Json :=
  match t.error with
  | some error =>
    -- request message validation errors; no ID = Notification: no reply
    if error.request_id.truthy then some (assemble_error_response error) else none
  | none =>
    match regLookup reg t.method with
    | none =>
      if t.request_id.truthy then
        some (assemble_error_response (mkFault METHOD_NOT_FOUND
          (.str ("Method \""
                 ++ (match t.method with | some s => s | none => "None")
                 ++ "\" is not found."))
          t.request_id none))
      else none
    | some f =>
      let args : List Json :=
        match t.params with
        | some (.plist xs) => xs
        | _ => []
      let kwargs : List (String × Json) :=
        match t.params with
        | some (.pdict kvs) => kvs
        | _ => []
      match f args kwargs with
      | .ok result =>
        if t.request_id.truthy then some (assemble_response result t.request_id)
        else none
      | .error (.fault ex) =>
        if t.request_id.truthy then some (assemble_error_response ex) else none
      | .error ex =>
        if t.request_id.truthy then
          some (assemble_error_response (mkFault INTERNAL_ERROR
            (.str (internalErrorText t.method t.params t.request_id ex.message))
            t.request_id (some ex.message)))
        else none

/-- Embeds `JSONPRCApplication.process_requests`: the loop appends, in input
order, the response (if any) of each request tuple. -/
def process_requests (reg : Registry) (requests : List ReqTuple) : List Json :=
  requests.filterMap (process_one reg)

/-- Embeds `JSONPRCApplication.handle_request_string`.  `request_string` is
the raw request text and `loads` the outcome of `json.loads` on it.  The
returned value is the object handed to `json.dumps` (or `none` when the
source returns `None`); in this embedding all response values are `Json`, so
the final-serialization `except` branch of the source is unreachable. -/
def handle_request_string (reg : Registry) (request_string : String)
    (loads : Except String Json) : Option Json :=
  match parse_request loads with
  | .error (.fault ex) => some (assemble_error_response ex)
  | .error ex =>
    some (assemble_error_response (mkFault INTERNAL_ERROR
      (.str ("While processing the follwoing message \"" ++ request_string
             ++ "\" encountered the following error message \""
             ++ ex.message ++ "\""))
      .null none))
  | .ok (requests, is_batch_mode) =>
    match process_requests reg requests with
    | [] => none
    | r :: rs =>
      if is_batch_mode then some (.arr (r :: rs)) else some r

/-! ## `jsonrpcparts/client.py` -/

/-- The mutable state of a `Client`: the batch flag, the `_requests` buffer,
and the seed of the uuid supply (models how many uuids were drawn). -/
structure ClientState where
  in_batch_mode : Bool
  requests_buf : List Json
  uuid_seed : Nat

/-- Embeds `Client.call`.  The pair is (raised-or-returned value, state after
the call); a raise leaves the state untouched. -/
def Client.call (st : ClientState) (method : String) (args : List Json)
    (kw : List (String × Json)) : Except PyError Json × ClientState :=
  if !args.isEmpty && !kw.isEmpty then
    (.error (.valueError
      "JSON-RPC method calls allow only either named or positional arguments."), st)
  else if method = "" then
    (.error (.valueError "JSON-RPC method call requires a method name."), st)
  else
    -- args or kw or None
    let params : Option Json :=
      if !args.isEmpty then some (.arr args)
      else if !kw.isEmpty then some (.obj kw)
      else none
    match assemble_request st.uuid_seed method params false with
    | .error e => (.error e, st)
    | .ok (request, seed') =>
      if st.in_batch_mode then
        ((.ok ((match request with
                | .obj kvs => (lookupKey kvs "id").getD .null
                | _ => .null))),
         { st with uuid_seed := seed', requests_buf := st.requests_buf ++ [request] })
      else
        (.ok request, { st with uuid_seed := seed' })

/-- Embeds `Client.notify` (result `Json.null` models the implicit Python
`None` return in batch mode). -/
def Client.notify (st : ClientState) (method : String) (args : List Json)
    (kw : List (String × Json)) : Except PyError Json × ClientState :=
  if !args.isEmpty && !kw.isEmpty then
    (.error (.valueError
      "JSON-RPC method calls allow only either named or positional arguments."), st)
  else if method = "" then
    (.error (.valueError "JSON-RPC method call requires a method name."), st)
  else
    let params : Option Json :=
      if !args.isEmpty then some (.arr args)
      else if !kw.isEmpty then some (.obj kw)
      else none
    match assemble_request st.uuid_seed method params true with
    | .error e => (.error e, st)
    | .ok (request, seed') =>
      if st.in_batch_mode then
        (.ok .null,
         { st with uuid_seed := seed', requests_buf := st.requests_buf ++ [request] })
      else
        (.ok request, { st with uuid_seed := seed' })

/-! ## Auxiliary definitions for the statements below -/

/-- A concrete one-method registry used in concrete evaluations: the method
"m" ignores its arguments and returns 7. -/
def exampleReg : Registry := [("m", fun _ _ => .ok (.num 7))]

/-- Validity of a params argument per the round-trip claim: absent, or a
non-empty list/tuple/dict. -/
def paramsOk : Option Json → Bool
  | none => true
  | some (.arr xs) => !xs.isEmpty
  | some (.obj kvs) => !kvs.isEmpty
  | some _ => false

/-- The parsed (`Params`) form of an assembled params value. -/
def toParams : Option Json → Option Params
  | some (.arr xs) => some (.plist xs)
  | some (.obj kvs) => some (.pdict kvs)
  | _ => none

/-! ## Theorems about the embedded program -/

/-- C1 counterexample: a request envelope whose id is the integer 0 — a
non-null id — is processed successfully, yet `process_requests` emits no
response entry for it (the source tests `if request_id:`, Python truthiness,
so the id 0 is treated like an absent id).  This falsifies "every envelope
with a non-null id that fails or succeeds produces exactly one corresponding
response". -/
theorem C1_counterexample :
    process_requests exampleReg
      [{ method := some "m", params := none, request_id := .num 0, error := none }] = []
    ∧ Json.num 0 ≠ Json.null :=
  ⟨rfl, fun h => nomatch h⟩

/-- C4 evaluation at the failing input: for the decoded request `[1]` — a
non-empty top-level array — `parse_request` does not return one envelope per
element; the element is not a dict, so `request_data.get` raises an
`AttributeError` that `_parse_single_request_trap_errors` does not trap
(it traps `errors.RPCFault` only), aborting the whole parse. -/
theorem C4_attribute_error_escapes :
    parse_request (.ok (.arr [.num 1]))
      = .error (.attributeError
          "\x27int\x27 object has no attribute \x27get\x27") := rfl

/-- C6 evaluation at the failing input: a 1.0 request with a string method,
an array params, an id, and one extra top-level key does not fail with an
InvalidRequest fault; the source line `raise errors.RPCInvalidRPC(...)`
references a name that `errors.py` never defines, so an `AttributeError`
escapes instead. -/
theorem C6_invalid_rpc_class_missing :
    json10_parse_request (.ok (.obj [("method", .str "m"), ("params", .arr []),
        ("id", .num 1), ("extra", .num 2)]))
      = .error rpcInvalidRPCMissing := rfl

/-- C7: for every raw string on which `json.loads` fails (any invalid-JSON
input), `handle_request_string` returns a single serialized error object —
not an array — whose `error.code` is -32700 and whose id is null, instead of
raising. -/
theorem C7_parse_error_single_object (reg : Registry) (s errMsg : String) :
    handle_request_string reg s (.error errMsg)
      = some (.obj [("jsonrpc", .str "2.0"),
          ("error", .obj [("code", .num (-32700)), ("message", .str "Parse error."),
            ("data", .str ("No valid JSON. (" ++ errMsg ++ ")"))]),
          ("id", .null)]) := rfl

/-- C9 counterexample: (a) `parse_response` of an empty array fails with a
ParseError fault (code -32700), not the InvalidRequest fault (-32600) the
claim states; (b) a response element carrying both a `result` and an `error`
member does not yield InvalidRequest: because the clash test is
`if error and result` (truthiness), a present-but-falsy result (0) slips
through and the element yields the typed fault of the error's code (-32601)
instead. -/
theorem C9_counterexample :
    (parse_response (.ok (.arr []))
        = .error (.fault (mkFault PARSE_ERROR
            (.str "Neither a batch array nor a single response object found in the response.")
            .null none))
      ∧ (mkFault PARSE_ERROR
            (.str "Neither a batch array nor a single response object found in the response.")
            .null none).error_code = .num (-32700)
      ∧ Json.num (-32700) ≠ Json.num INVALID_REQUEST)
    ∧ (parse_single_response (.obj [("jsonrpc", .str "2.0"), ("id", .num 1),
          ("result", .num 0),
          ("error", .obj [("code", .num (-32601)), ("message", .str "x")])])
        = .error (.fault (mkFault METHOD_NOT_FOUND .null (.num 1) none))
      ∧ (mkFault METHOD_NOT_FOUND .null (.num 1) none).error_code = .num (-32601)
      ∧ Json.num (-32601) ≠ Json.num INVALID_REQUEST) := by
  refine ⟨⟨rfl, rfl, ?_⟩, rfl, rfl, ?_⟩ <;>
    · intro h
      injection h with hn
      exact absurd hn (by decide)

/-- On an envelope whose parse-error (if any) echoes the envelope's own id —
as every envelope produced by `_parse_single_request_trap_errors` does —
`process_one` drops the item exactly when the id is Python-falsy. -/
theorem process_one_none_iff (reg : Registry) (env : ReqTuple)
    (wf : ∀ f, env.error = some f → f.request_id = env.request_id) :
    process_one reg env = none ↔ env.request_id.truthy = false := by
  obtain ⟨m, params, rid, err⟩ := env
  cases err with
  | some f =>
    have hf := wf f rfl
    cases hc : rid.truthy <;> simp_all [process_one]
  | none =>
    cases hreg : regLookup reg m with
    | none => cases hc : rid.truthy <;> simp [process_one, hreg, hc]
    | some g =>
      rcases params with _ | pp
      · cases hres : g [] [] with
        | ok result => cases hc : rid.truthy <;> simp [process_one, hreg, hres, hc]
        | error e =>
          cases e <;> (cases hc : rid.truthy <;> simp [process_one, hreg, hres, hc])
      · rcases pp with xs | kvs
        · cases hres : g xs [] with
          | ok result => cases hc : rid.truthy <;> simp [process_one, hreg, hres, hc]
          | error e =>
            cases e <;> (cases hc : rid.truthy <;> simp [process_one, hreg, hres, hc])
        · cases hres : g [] kvs with
          | ok result => cases hc : rid.truthy <;> simp [process_one, hreg, hres, hc]
          | error e =>
            cases e <;> (cases hc : rid.truthy <;> simp [process_one, hreg, hres, hc])

/-- C1 (amended): a response entry is emitted for an envelope if and only if
its id is Python-truthy (non-null AND non-zero AND non-empty) — not merely
non-null.  Envelopes with an absent, null, or otherwise falsy id produce no
response regardless of outcome; an envelope with a truthy id always produces
exactly one response.  The hypothesis states that a parse-time error carries
the envelope's own id, which holds for all parser-produced envelopes. -/
theorem C1_amended_truthy_id (reg : Registry) (env : ReqTuple)
    (wf : ∀ f, env.error = some f → f.request_id = env.request_id) :
    (env.request_id.truthy = true →
        ∃ r, process_requests reg [env] = [r])
    ∧ (env.request_id.truthy = false →
        process_requests reg [env] = []) := by
  have hiff := process_one_none_iff reg env wf
  constructor
  · intro ht
    have hne : process_one reg env ≠ none := by
      intro h
      rw [hiff, ht] at h
      exact Bool.noConfusion h
    obtain ⟨r, hr⟩ := Option.ne_none_iff_exists'.mp hne
    exact ⟨r, by simp [process_requests, hr]⟩
  · intro ht
    have h0 : process_one reg env = none := hiff.mpr ht
    simp [process_requests, h0]

/-- Witness for C1 (amended): a successful request with the truthy id "x1"
produces exactly one response. -/
theorem C1_amended_truthy_id_witness :
    ∃ r, process_requests exampleReg
      [{ method := some "m", params := none, request_id := .str "x1",
         error := none }] = [r] :=
  (C1_amended_truthy_id exampleReg
    { method := some "m", params := none, request_id := .str "x1", error := none }
    (fun _ h => nomatch h)).1 rfl

/-- C2: per-item isolation and order preservation.  Processing a batch
decomposed as `pre ++ mid :: post` yields exactly the responses of `pre`,
then those of `mid` alone, then those of `post` — so a malformed or raising
item `mid` cannot affect the other items' responses or their relative order,
and an item producing no reply (notification) contributes nothing, leaving
no gap.  Moreover the whole output is the in-order concatenation of
independent per-item results. -/
theorem C2_per_item_isolation (reg : Registry) (pre : List ReqTuple)
    (mid : ReqTuple) (post : List ReqTuple) :
    process_requests reg (pre ++ mid :: post)
      = process_requests reg pre ++ process_requests reg [mid]
        ++ process_requests reg post
    ∧ process_requests reg (pre ++ mid :: post)
      = (pre ++ mid :: post).filterMap (process_one reg) := by
  refine ⟨?_, rfl⟩
  simp only [process_requests, List.filterMap_append]
  cases h : process_one reg mid <;>
    simp [List.filterMap_cons, h]

/-- C3: round-trip.  For any method string, any valid params (absent or a
non-empty list/dict), and either notification flag, assembling a request with
the 2.0 serializer and parsing the dumped object back with the same
serializer's request parser recovers the same method, the same params
(absent exactly when the params argument was absent), and the same id —
the freshly generated uuid for a call, and a null/absent id for a
notification. -/
theorem C3_round_trip (seed : Nat) (method : String) (params : Option Json)
    (notification : Bool) (h : paramsOk params = true) :
    ∃ req seed2, assemble_request seed method params notification = .ok (req, seed2)
      ∧ parse_request (.ok req)
          = .ok ([{ method := some method, params := toParams params,
                    request_id := if notification then Json.null
                                  else Json.str (uuid4_str seed),
                    error := none }], false) := by
  rcases params with _ | p
  · cases notification
    · exact ⟨_, _, rfl, rfl⟩
    · exact ⟨_, _, rfl, rfl⟩
  · rcases p with _ | b | n | s | xs | kvs
    · exact nomatch h
    · exact nomatch h
    · exact nomatch h
    · exact nomatch h
    · rcases xs with _ | ⟨x, xt⟩
      · exact nomatch h
      · cases notification
        · exact ⟨_, _, rfl, rfl⟩
        · exact ⟨_, _, rfl, rfl⟩
    · rcases kvs with _ | ⟨kv, kvt⟩
      · exact nomatch h
      · cases notification
        · exact ⟨_, _, rfl, rfl⟩
        · exact ⟨_, _, rfl, rfl⟩

/-- Witness for C3: the round trip at a concrete call. -/
theorem C3_round_trip_witness :
    ∃ req seed2,
      assemble_request 0 "m" (some (.arr [.num 1])) false = .ok (req, seed2)
      ∧ parse_request (.ok req)
          = .ok ([{ method := some "m", params := some (.plist [.num 1]),
                    request_id := Json.str (uuid4_str 0),
                    error := none }], false) :=
  C3_round_trip 0 "m" (some (.arr [.num 1])) false rfl

/-- C5: idempotent error mapping.  (a) For every defined error kind
(every code in `ERROR_CODE_CLASS_MAP`), constructing a fault of that kind
— with any data and any correlating id — assembling it with
`assemble_error_response` and parsing the result back with `parse_response`
recovers exactly the same fault (same kind, code, data and id), captured in
the single non-batch response tuple.  (b) For a wire error object whose code
matches no defined kind, parsing yields a generic fault carrying that exact
code and message unchanged. -/
theorem C5_error_round_trip
    (code : Int) (data rid : Json) (hknown : code ∈ KNOWN_ERROR_CODES)
    (c m rid2 : Json) (hunknown : codeToKnown c = none) :
    parse_response (.ok (assemble_error_response (mkFault code data rid none)))
      = .ok ([{ result := .null, request_id := rid,
                error := some (mkFault code data rid none) }], false)
    ∧ parse_single_response
        (.obj [("jsonrpc", .str "2.0"), ("id", rid2),
               ("error", .obj [("code", c), ("message", m)])])
      = .error (.fault { error_code := c, message := m, error_data := .null,
                         request_id := rid2 }) := by
  constructor
  · fin_cases hknown <;> cases data <;> rfl
  · have hred : parse_single_response
        (.obj [("jsonrpc", .str "2.0"), ("id", rid2),
               ("error", .obj [("code", c), ("message", m)])])
        = (match codeToKnown c with
           | some n => .error (.fault (mkFault n .null rid2 none))
           | none => .error (.fault { error_code := c, message := m,
                                      error_data := .null, request_id := rid2 })) := rfl
    rw [hred, hunknown]

/-- Witness for C5: the round trip at the MethodNotFound kind and a concrete
unknown-code wire error. -/
theorem C5_error_round_trip_witness :
    parse_response (.ok (assemble_error_response
        (mkFault (-32601) .null (.str "a") none)))
      = .ok ([{ result := .null, request_id := .str "a",
                error := some (mkFault (-32601) .null (.str "a") none) }], false)
    ∧ parse_single_response
        (.obj [("jsonrpc", .str "2.0"), ("id", .num 3),
               ("error", .obj [("code", .num 42), ("message", .str "oops")])])
      = .error (.fault { error_code := .num 42, message := .str "oops",
                         error_data := .null, request_id := .num 3 }) :=
  C5_error_round_trip (-32601) .null (.str "a") (by decide)
    (.num 42) (.str "oops") (.num 3) rfl

/-- C8: for every client state (inside or outside batch mode) and every call
or notify invocation with both non-empty positional args and non-empty
keyword args, a `ValueError` is raised and the state is returned untouched:
the batch buffer is unchanged and the uuid supply was not consumed (no id
was generated), i.e. the validation fires before any side effect. -/
theorem C8_args_kw_exclusive (st : ClientState) (method : String)
    (args : List Json) (kw : List (String × Json))
    (hargs : args ≠ []) (hkw : kw ≠ []) :
    Client.call st method args kw
      = (.error (.valueError
          "JSON-RPC method calls allow only either named or positional arguments."), st)
    ∧ Client.notify st method args kw
      = (.error (.valueError
          "JSON-RPC method calls allow only either named or positional arguments."), st) := by
  have ha : args.isEmpty = false := by
    cases args with
    | nil => exact absurd rfl hargs
    | cons x xt => rfl
  have hk : kw.isEmpty = false := by
    cases kw with
    | nil => exact absurd rfl hkw
    | cons x xt => rfl
  constructor
  · simp [Client.call, ha, hk]
  · simp [Client.notify, ha, hk]

/-- Witness for C8: a concrete invocation with one positional and one
keyword argument. -/
theorem C8_args_kw_exclusive_witness :
    Client.call ⟨false, [], 0⟩ "m" [.num 1] [("a", .num 2)]
      = (.error (.valueError
          "JSON-RPC method calls allow only either named or positional arguments."),
         ⟨false, [], 0⟩)
    ∧ Client.notify ⟨false, [], 0⟩ "m" [.num 1] [("a", .num 2)]
      = (.error (.valueError
          "JSON-RPC method calls allow only either named or positional arguments."),
         ⟨false, [], 0⟩) :=
  C8_args_kw_exclusive ⟨false, [], 0⟩ "m" [.num 1] [("a", .num 2)]
    (List.cons_ne_nil _ _) (List.cons_ne_nil _ _)

/-- C10: for every client state and any argument lists, calling or notifying
with an empty (falsy) method name raises a `ValueError` and returns the
state untouched — no request object is assembled, no id is generated (the
uuid supply is not consumed), and the batch buffer is not mutated. -/
theorem C10_empty_method_rejected (st : ClientState) (args : List Json)
    (kw : List (String × Json)) :
    (∃ msg, Client.call st "" args kw = (.error (.valueError msg), st))
    ∧ (∃ msg, Client.notify st "" args kw = (.error (.valueError msg), st)) := by
  cases ha : args.isEmpty <;> cases hk : kw.isEmpty <;>
    exact ⟨⟨_, by simp [Client.call, ha, hk]; rfl⟩,
           ⟨_, by simp [Client.notify, ha, hk]; rfl⟩⟩

/-- C9 (amended): `parse_response` follows the same batch-detection shape as
`parse_request` — non-empty array ⇒ per-element results with is_batch true,
object ⇒ single-element result with is_batch false — but an empty array or
any other JSON type fails with a ParseError fault (not InvalidRequest).
Per element: a missing id yields an InvalidRequest fault; a missing jsonrpc
member, or a jsonrpc string other than "2.0", yields an InvalidRequest fault;
a truthy result together with a truthy error yields an InvalidRequest fault
(the clash test uses truthiness, so a present-but-falsy member does not
trigger it); a truthy well-formed error object with a known code yields the
typed fault of that code; with an unknown code it yields a generic fault
preserving that exact code and message; and with a falsy (or absent) error
member the element yields the result and id with no error. -/
theorem C9_amended_response_parsing :
    (∀ x xs, parse_response (.ok (.arr (x :: xs)))
        = .ok ((x :: xs).map parse_single_response_trap_errors, true))
    ∧ (∀ kvs, parse_response (.ok (.obj kvs))
        = .ok ([parse_single_response_trap_errors (.obj kvs)], false))
    ∧ (∀ j : Json,
        (match j with | .arr xs => xs.isEmpty | .obj _ => false | _ => true) = true →
        parse_response (.ok j)
          = .error (.fault (mkFault PARSE_ERROR
              (.str "Neither a batch array nor a single response object found in the response.")
              .null none)))
    ∧ (∀ kvs, lookupKey kvs "id" = none →
        parse_single_response (.obj kvs)
          = .error (.fault (mkFault INVALID_REQUEST
              (.str "Invalid Response, \"id\" missing.") .null none)))
    ∧ (∀ kvs rid, lookupKey kvs "id" = some rid →
        lookupKey kvs "jsonrpc" = none →
        parse_single_response (.obj kvs)
          = .error (.fault (mkFault INVALID_REQUEST
              (.str "Invalid Response, \"jsonrpc\" missing.") rid none)))
    ∧ (∀ kvs rid v, lookupKey kvs "id" = some rid →
        lookupKey kvs "jsonrpc" = some (.str v) → v ≠ "2.0" →
        parse_single_response (.obj kvs)
          = .error (.fault (mkFault INVALID_REQUEST
              (.str "Invalid jsonrpc version.") rid none)))
    ∧ (∀ kvs rid, lookupKey kvs "id" = some rid →
        lookupKey kvs "jsonrpc" = some (.str "2.0") →
        ((lookupKey kvs "error").getD .null).truthy = true →
        ((lookupKey kvs "result").getD .null).truthy = true →
        parse_single_response (.obj kvs)
          = .error (.fault (mkFault INVALID_REQUEST
              (.str "Invalid Response, only \"result\" OR \"error\" allowed.") rid none)))
    ∧ (∀ kvs rid ekvs cd msg n, lookupKey kvs "id" = some rid →
        lookupKey kvs "jsonrpc" = some (.str "2.0") →
        lookupKey kvs "error" = some (.obj ekvs) →
        ((lookupKey kvs "result").getD .null).truthy = false →
        lookupKey ekvs "code" = some cd →
        lookupKey ekvs "message" = some msg →
        codeToKnown cd = some n →
        parse_single_response (.obj kvs)
          = .error (.fault (mkFault n ((lookupKey ekvs "data").getD .null) rid none)))
    ∧ (∀ kvs rid ekvs cd msg, lookupKey kvs "id" = some rid →
        lookupKey kvs "jsonrpc" = some (.str "2.0") →
        lookupKey kvs "error" = some (.obj ekvs) →
        ((lookupKey kvs "result").getD .null).truthy = false →
        lookupKey ekvs "code" = some cd →
        lookupKey ekvs "message" = some msg →
        codeToKnown cd = none →
        parse_single_response (.obj kvs)
          = .error (.fault { error_code := cd, message := msg,
                             error_data := (lookupKey ekvs "data").getD .null,
                             request_id := rid }))
    ∧ (∀ kvs rid, lookupKey kvs "id" = some rid →
        lookupKey kvs "jsonrpc" = some (.str "2.0") →
        ((lookupKey kvs "error").getD .null).truthy = false →
        parse_single_response (.obj kvs)
          = .ok ((lookupKey kvs "result").getD .null, rid)) := by
  refine ⟨fun x xs => rfl, fun kvs => rfl, ?_, ?_, ?_, ?_, ?_, ?_, ?_, ?_⟩
  · intro j h
    rcases j with _ | b | n | s | xs | kvs
    · rfl
    · rfl
    · rfl
    · rfl
    · cases xs with
      | nil => rfl
      | cons x xt => exact nomatch h
    · exact nomatch h
  · intro kvs h
    simp [parse_single_response, h]
  · intro kvs rid h1 h2
    simp [parse_single_response, h1, h2]
  · intro kvs rid v h1 h2 h3
    simp [parse_single_response, h1, h2, h3]
  · intro kvs rid h1 h2 herr hres
    simp [parse_single_response, h1, h2, herr, hres]
  · intro kvs rid ekvs cd msg n h1 h2 h3 h4 h5 h6 h7
    have htru : (Json.obj ekvs).truthy = true := by
      cases ekvs with
      | nil => exact nomatch h5
      | cons e et => rfl
    simp [parse_single_response, h1, h2, h3, h4, h5, h6, h7, htru]
  · intro kvs rid ekvs cd msg h1 h2 h3 h4 h5 h6 h7
    have htru : (Json.obj ekvs).truthy = true := by
      cases ekvs with
      | nil => exact nomatch h5
      | cons e et => rfl
    simp [parse_single_response, h1, h2, h3, h4, h5, h6, h7, htru]
  · intro kvs rid h1 h2 h3
    simp [parse_single_response, h1, h2, h3]

/-- Witness for C9 (amended): a response element with no id member is
rejected as InvalidRequest. -/
theorem C9_amended_response_parsing_witness :
    parse_single_response (.obj [("result", .num 5)])
      = .error (.fault (mkFault INVALID_REQUEST
          (.str "Invalid Response, \"id\" missing.") .null none)) :=
  C9_amended_response_parsing.2.2.2.1 [("result", .num 5)] rfl

end JsonRpcParts
